import Mathlib

/-!
# Verification of the numeric core of `lifetimes/plotting.py`

Shallow embedding of the numeric / aggregation logic of the plotting module
of the `lifetimes` library.  Machine floats are modelled as exact rationals
(`ℚ`); pandas columns are lists of rationals; the fitted model is an opaque
record of capability functions plus its training-data columns.
-/

/-- The fitted model, as consumed by the plotting core: its prediction
capabilities (opaque functions) and read access to the training dataset's
`frequency` and `T` columns (`model.data['frequency']`, `model.data['T']`).
The field `probabilityAliveAt` is the capability used by the alive-path
reconstruction (spec section 3). -/
structure FittedModel where
  data_frequency : List ℚ
  data_T : List ℚ
  conditional_expected_number_of_purchases_up_to_time : ℚ → ℚ → ℚ → ℚ → ℚ
  expected_number_of_purchases_up_to_time : ℚ → ℚ
  conditional_probability_alive_matrix : Option ℤ → Option ℤ → List (List ℚ)
  probabilityAliveAt : ℚ → ℚ → ℚ → ℚ

/-- `pandas.Series.max` over a nonempty column (the empty case, where pandas
produces NaN, is outside every claim's inputs). -/
def seriesMax : List ℚ → ℚ
  | [] => 0
  | x :: xs => xs.foldl max x

/-- Python's `int(q)`: truncation toward zero. -/
def pyInt (q : ℚ) : ℤ := if q < 0 then ⌈q⌉ else ⌊q⌋

/-- The effective frequency bound of the grid evaluator: the supplied `max_x`,
or `int(model.data['frequency'].max())` when unspecified. -/
def gridMaxX (model : FittedModel) (max_x : Option ℤ) : ℤ :=
  max_x.getD (pyInt (seriesMax model.data_frequency))

/-- The effective recency bound of the grid evaluator: the supplied `max_t`,
or `int(model.data['T'].max())` when unspecified. -/
def gridMaxT (model : FittedModel) (max_t : Option ℤ) : ℤ :=
  max_t.getD (pyInt (seriesMax model.data_T))

/-- The numeric core of `plot_frequency_recency_matrix` (the grid evaluator):
builds `Z` of shape `(max_t + 1, max_x + 1)` with
`Z[i, j] = model.conditional_expected_number_of_purchases_up_to_time(T, x, t_x, max_t)`
via the loop over `t_x = i` (recency rows) and `x = j` (frequency columns). -/
def plot_frequency_recency_matrix (model : FittedModel) (T : ℚ)
    (max_x max_t : Option ℤ) : List (List ℚ) :=
  (List.range (gridMaxT model max_t + 1).toNat).map (fun i : ℕ =>
    (List.range (gridMaxX model max_x + 1).toNat).map (fun j : ℕ =>
      model.conditional_expected_number_of_purchases_up_to_time T ((j : ℤ) : ℚ) ((i : ℤ) : ℚ)
        ((gridMaxT model max_t : ℤ) : ℚ)))

/-- A grid has exact shape `(r, c)`: `r` rows, every row of length `c`. -/
def gridShape (g : List (List ℚ)) (r c : ℕ) : Prop :=
  g.length = r ∧ ∀ row ∈ g, row.length = c

instance (g : List (List ℚ)) (r c : ℕ) : Decidable (gridShape g r c) := by
  unfold gridShape; infer_instance

/-- A concrete fitted model used to instantiate universally quantified theorems. -/
def mA : FittedModel where
  data_frequency := [0, 2, 5]
  data_T := [10, 20, 30]
  conditional_expected_number_of_purchases_up_to_time := fun t x r a => t + 2 * x + 3 * r + 5 * a
  expected_number_of_purchases_up_to_time := fun t => t * t
  conditional_probability_alive_matrix := fun _ _ => [[1]]
  probabilityAliveAt := fun _ _ _ => 1 / 2

/-- Same prediction capabilities as `mA`, entirely different training data. -/
def mB : FittedModel where
  data_frequency := [7]
  data_T := [3]
  conditional_expected_number_of_purchases_up_to_time := fun t x r a => t + 2 * x + 3 * r + 5 * a
  expected_number_of_purchases_up_to_time := fun t => t * t
  conditional_probability_alive_matrix := fun _ _ => [[1]]
  probabilityAliveAt := fun _ _ _ => 1 / 2

/-- `np.linspace(a, b, n)` in exact arithmetic: `n` evenly spaced points from
`a` to `b` inclusive, point `i` being `a + (b - a) * i / (n - 1)`. -/
def linspace (a b : ℚ) (n : ℕ) : List ℚ :=
  (List.range n).map (fun i : ℕ => a + (b - a) * (i : ℚ) / ((n : ℚ) - 1))

/-- The numeric core of `plot_expected_repeat_purchases`: `max_T` is the
maximum observed `T`; the observed series covers `np.linspace(0, max_T, 100)`
and the dashed extrapolated series `np.linspace(max_T, 1.5 * max_T, 100)`,
each point mapped through `model.expected_number_of_purchases_up_to_time`. -/
def plot_expected_repeat_purchases (model : FittedModel) :
    List (ℚ × ℚ) × List (ℚ × ℚ) :=
  ((linspace 0 (seriesMax model.data_T) 100).map
      (fun t => (t, model.expected_number_of_purchases_up_to_time t)),
   (linspace (seriesMax model.data_T) (3 / 2 * seriesMax model.data_T) 100).map
      (fun t => (t, model.expected_number_of_purchases_up_to_time t)))

/-- Like `mA` but with a training dataset whose maximum `T` is 10. -/
def mC : FittedModel where
  data_frequency := [0, 2, 5]
  data_T := [4, 10, 7]
  conditional_expected_number_of_purchases_up_to_time := fun t x r a => t + 2 * x + 3 * r + 5 * a
  expected_number_of_purchases_up_to_time := fun t => t * t
  conditional_probability_alive_matrix := fun _ _ => [[1]]
  probabilityAliveAt := fun _ _ _ => 1 / 2

/-- Like `mA` but with a degenerate training dataset whose maximum `T` is 0. -/
def mZ : FittedModel where
  data_frequency := [0]
  data_T := [0]
  conditional_expected_number_of_purchases_up_to_time := fun t x r a => t + 2 * x + 3 * r + 5 * a
  expected_number_of_purchases_up_to_time := fun t => t * t
  conditional_probability_alive_matrix := fun _ _ => [[1]]
  probabilityAliveAt := fun _ _ _ => 1 / 2

/-- One row of the calibration-and-holdout dataframe. -/
structure CalibrationHoldoutRow where
  frequency_cal : ℚ
  recency_cal : ℚ
  T_cal : ℚ
  frequency_holdout : ℚ
  duration_holdout : ℚ
deriving DecidableEq, Inhabited

/-- The covariate used as the x-axis (`kind` in the source). -/
inductive CovariateKind where
  | frequency_cal
  | recency_cal
  | T_cal
  | time_since_last_purchase
deriving DecidableEq

/-- The covariate value of a row; `time_since_last_purchase` is the derived
column `T_cal - recency_cal`. -/
def covariateValue (kind : CovariateKind) (r : CalibrationHoldoutRow) : ℚ :=
  match kind with
  | .frequency_cal => r.frequency_cal
  | .recency_cal => r.recency_cal
  | .T_cal => r.T_cal
  | .time_since_last_purchase => r.T_cal - r.recency_cal

/-- Arithmetic mean of a column (pandas `.mean()` on a nonempty group). -/
def listMean (l : List ℚ) : ℚ := l.sum / (l.length : ℚ)

/-- The `model_predictions` column: each row's prediction uses the
`duration_holdout` captured once from the dataframe (`summary.iloc[0]`). -/
def model_predictions (model : FittedModel) (dh : ℚ) (r : CalibrationHoldoutRow) : ℚ :=
  model.conditional_expected_number_of_purchases_up_to_time dh
    r.frequency_cal r.recency_cal r.T_cal

/-- The distinct covariate values in ascending order: pandas `groupby` sorts
the group keys ascending. -/
def groupKeys (kind : CovariateKind) (rows : List CalibrationHoldoutRow) : List ℚ :=
  List.insertionSort (· ≤ ·) ((rows.map (covariateValue kind)).dedup)

/-- The numeric core of `plot_calibration_purchases_vs_holdout_purchases`:
`duration_holdout` is read from `summary.iloc[0]`; rows are grouped by the
exact covariate value, per group the means of `frequency_holdout` and
`model_predictions` are taken, and `.ix[:n]` is applied to the sorted result.
On the numeric group index produced by `groupby`, `.ix[:n]` is a label-based
slice, inclusive of the stop label: it keeps every group whose covariate value
is at most `n` (not the first `n` groups). -/
def plot_calibration_purchases_vs_holdout_purchases (model : FittedModel)
    (rows : List CalibrationHoldoutRow) (kind : CovariateKind) (n : ℤ) :
    List (ℚ × ℚ × ℚ) :=
  ((groupKeys kind rows).filter (fun k => k ≤ (n : ℚ))).map (fun k =>
    (k,
     listMean (((rows.filter (fun r => covariateValue kind r = k)).map
       CalibrationHoldoutRow.frequency_holdout)),
     listMean (((rows.filter (fun r => covariateValue kind r = k)).map
       (model_predictions model (rows.headI).duration_holdout)))))

/-- Eight rows whose `frequency_cal` values are the eight distinct covariate
values 0..7 (all with the same `duration_holdout`). -/
def rows8 : List CalibrationHoldoutRow :=
  (List.range 8).map (fun i : ℕ =>
    { frequency_cal := (i : ℚ), recency_cal := 0, T_cal := 2,
      frequency_holdout := 1, duration_holdout := 1 })

/-- Two rows with the same covariate but different `duration_holdout` (5, 7). -/
def rowsMixed : List CalibrationHoldoutRow :=
  [{ frequency_cal := 1, recency_cal := 0, T_cal := 2,
     frequency_holdout := 3, duration_holdout := 5 },
   { frequency_cal := 1, recency_cal := 0, T_cal := 2,
     frequency_holdout := 1, duration_holdout := 7 }]

/-- The numeric core of `plot_probability_alive_matrix`: the single line
`z = model.conditional_probability_alive_matrix(max_x, max_t)` — the bounds
(including unspecified ones) are handed to the model unchanged and the
returned grid is rendered verbatim. -/
def plot_probability_alive_matrix (model : FittedModel)
    (max_x max_t : Option ℤ) : List (List ℚ) :=
  model.conditional_probability_alive_matrix max_x max_t

/-- A model whose probability-alive grid distinguishes whether it received a
defaulted bound, and returns a value outside `[0, 1]` when it did not. -/
def mE : FittedModel where
  data_frequency := [3]
  data_T := [4]
  conditional_expected_number_of_purchases_up_to_time := fun t _ _ _ => t
  expected_number_of_purchases_up_to_time := fun t => t
  conditional_probability_alive_matrix := fun mx _ => if mx = none then [[2]] else [[0]]
  probabilityAliveAt := fun _ _ _ => 1 / 2

/-- Modelled from the spec: `calculate_alive_path` is imported from
`lifetimes.utils`, which is not among the sources; only its call site in
`plot_history_alive` is.  Following spec section 4.4: transactions are given
as ascending bucket indices (the discretization of the timestamps at the
caller's frequency, the first transaction in bucket `transactions.headI`);
for each of the `units + 1` bucket boundaries `k` after the first
transaction, the cumulative `frequency` is the number of distinct transaction
buckets observed up to that boundary minus one (the first transaction is not
a repeat, so the first value reflects frequency 0, per spec section 8),
`recency` is the bucket distance from the first transaction to the last
transaction observed so far, and the model's `probabilityAliveAt` is
evaluated at `(age = k, frequency, recency)`. -/
def calculate_alive_path (model : FittedModel) (transactions : List ℕ)
    (units : ℕ) : List ℚ :=
  (List.range (units + 1)).map (fun k : ℕ =>
    let seen := (transactions.filter (fun b => b ≤ transactions.headI + k)).dedup
    model.probabilityAliveAt (k : ℚ) ((seen.length : ℚ) - 1)
      (((seen.foldl max transactions.headI) - transactions.headI : ℕ) : ℚ))

/-- C1: the cell at recency row `r` and frequency column `f` of the
frequency/recency grid equals the model's conditional expectation evaluated
at horizon `T`, frequency `f`, recency `r` and, as the age argument, the
grid's maximum recency (not a per-cell age). -/
theorem gridCell_eq (model : FittedModel) (T : ℚ) (max_x max_t : Option ℤ)
    (r f : ℕ) (hr : (r : ℤ) ≤ gridMaxT model max_t) (hf : (f : ℤ) ≤ gridMaxX model max_x) :
    ((plot_frequency_recency_matrix model T max_x max_t).getD r []).getD f 0 =
      model.conditional_expected_number_of_purchases_up_to_time T (f : ℚ) (r : ℚ)
        ((gridMaxT model max_t : ℤ) : ℚ) := by
  have hr' : r < (gridMaxT model max_t + 1).toNat := by omega
  have hf' : f < (gridMaxX model max_x + 1).toNat := by omega
  unfold plot_frequency_recency_matrix
  simp only [List.getD_eq_getElem?_getD, List.getElem?_map, List.getElem?_range hr',
    List.getElem?_range hf', Option.map_some', Option.getD_some]
  simp

/-- C1 witness: the cell formula at a concrete grid cell. -/
theorem gridCell_eq_witness :
    ((plot_frequency_recency_matrix mA 1 (some 3) (some 4)).getD 2 []).getD 1 0 =
      mA.conditional_expected_number_of_purchases_up_to_time 1 1 2 4 :=
  gridCell_eq mA 1 (some 3) (some 4) 2 1 (by decide) (by decide)

/-- C2: for explicitly supplied non-negative bounds the grid has exact shape
`(max_t + 1, max_x + 1)`; with unspecified bounds they are derived from the
training data as truncated maxima, and in particular
`frequency = [0,2,5]`, `T = [10,20,30]` yields shape `(31, 6)`. -/
theorem grid_shape :
    (∀ (model : FittedModel) (T : ℚ) (mx mt : ℤ), 0 ≤ mx → 0 ≤ mt →
      gridShape (plot_frequency_recency_matrix model T (some mx) (some mt))
        (mt.toNat + 1) (mx.toNat + 1)) ∧
    (∀ (model : FittedModel) (T : ℚ), model.data_frequency = [0, 2, 5] →
      model.data_T = [10, 20, 30] →
      gridShape (plot_frequency_recency_matrix model T none none) 31 6) := by
  constructor
  · intro model T mx mt hx ht
    refine ⟨?_, ?_⟩
    · simp [plot_frequency_recency_matrix, gridMaxT]
      omega
    · intro row hrow
      simp only [plot_frequency_recency_matrix, List.mem_map] at hrow
      obtain ⟨i, _, rfl⟩ := hrow
      simp [gridMaxX]
      omega
  · intro model T hf ht
    have hx : gridMaxX model none = 5 := by
      simp [gridMaxX, hf, seriesMax, pyInt]
      norm_num
    have ht' : gridMaxT model none = 30 := by
      simp [gridMaxT, ht, seriesMax, pyInt]
      norm_num
    refine ⟨?_, ?_⟩
    · simp [plot_frequency_recency_matrix, ht']
    · intro row hrow
      simp only [plot_frequency_recency_matrix, List.mem_map] at hrow
      obtain ⟨i, _, rfl⟩ := hrow
      simp [hx]

/-- C2 witness: concrete shapes for explicit and derived bounds. -/
theorem grid_shape_witness :
    gridShape (plot_frequency_recency_matrix mA 1 (some 3) (some 4)) 5 4 ∧
    gridShape (plot_frequency_recency_matrix mA 1 none none) 31 6 :=
  ⟨grid_shape.1 mA 1 3 4 (by decide) (by decide), grid_shape.2 mA 1 rfl rfl⟩

/-- C10: with both bounds supplied explicitly, the grid depends only on the
model's `conditional_expected_number_of_purchases_up_to_time` capability,
never on its training data. -/
theorem grid_data_independent (m₁ m₂ : FittedModel) (T : ℚ) (mx mt : ℤ)
    (h : m₁.conditional_expected_number_of_purchases_up_to_time =
      m₂.conditional_expected_number_of_purchases_up_to_time) :
    plot_frequency_recency_matrix m₁ T (some mx) (some mt) =
      plot_frequency_recency_matrix m₂ T (some mx) (some mt) := by
  simp [plot_frequency_recency_matrix, gridMaxX, gridMaxT, h]

/-- C10 witness: models `mA` and `mB` share the prediction function but have
different training data; their explicit-bound grids coincide. -/
theorem grid_data_independent_witness :
    plot_frequency_recency_matrix mA 1 (some 2) (some 2) =
      plot_frequency_recency_matrix mB 1 (some 2) (some 2) :=
  grid_data_independent mA mB 1 2 2 rfl

lemma repeatCurve_fst_getD (model : FittedModel) (i : ℕ) (hi : i < 100) :
    (plot_expected_repeat_purchases model).1.getD i (0, 0) =
      (0 + (seriesMax model.data_T - 0) * (i : ℚ) / 99,
        model.expected_number_of_purchases_up_to_time
          (0 + (seriesMax model.data_T - 0) * (i : ℚ) / 99)) := by
  unfold plot_expected_repeat_purchases linspace
  simp only [List.map_map, List.getD_eq_getElem?_getD, List.getElem?_map,
    List.getElem?_range hi, Option.map_some', Option.getD_some]
  norm_num

lemma repeatCurve_snd_getD (model : FittedModel) (i : ℕ) (hi : i < 100) :
    (plot_expected_repeat_purchases model).2.getD i (0, 0) =
      (seriesMax model.data_T +
          (3 / 2 * seriesMax model.data_T - seriesMax model.data_T) * (i : ℚ) / 99,
        model.expected_number_of_purchases_up_to_time
          (seriesMax model.data_T +
            (3 / 2 * seriesMax model.data_T - seriesMax model.data_T) * (i : ℚ) / 99)) := by
  unfold plot_expected_repeat_purchases linspace
  simp only [List.map_map, List.getD_eq_getElem?_getD, List.getElem?_map,
    List.getElem?_range hi, Option.map_some', Option.getD_some]
  norm_num

lemma repeatCurve_lengths (model : FittedModel) :
    (plot_expected_repeat_purchases model).1.length = 100 ∧
    (plot_expected_repeat_purchases model).2.length = 100 := by
  constructor <;> simp [plot_expected_repeat_purchases, linspace]

/-- C6: both series have exactly 100 points; point `i` of the observed series
sits at `0 + (max_T - 0) * i / 99` (evenly spaced over `[0, max_T]`) and point
`i` of the extrapolated series at `max_T + (1.5 * max_T - max_T) * i / 99`
(evenly spaced over `[max_T, 1.5 * max_T]`), each mapped through
`expected_number_of_purchases_up_to_time`. -/
theorem repeat_curve_series (model : FittedModel) (i : ℕ) (hi : i < 100) :
    (plot_expected_repeat_purchases model).1.length = 100 ∧
    (plot_expected_repeat_purchases model).2.length = 100 ∧
    (plot_expected_repeat_purchases model).1.getD i (0, 0) =
      (0 + (seriesMax model.data_T - 0) * (i : ℚ) / 99,
        model.expected_number_of_purchases_up_to_time
          (0 + (seriesMax model.data_T - 0) * (i : ℚ) / 99)) ∧
    (plot_expected_repeat_purchases model).2.getD i (0, 0) =
      (seriesMax model.data_T +
          (3 / 2 * seriesMax model.data_T - seriesMax model.data_T) * (i : ℚ) / 99,
        model.expected_number_of_purchases_up_to_time
          (seriesMax model.data_T +
            (3 / 2 * seriesMax model.data_T - seriesMax model.data_T) * (i : ℚ) / 99)) :=
  ⟨(repeatCurve_lengths model).1, (repeatCurve_lengths model).2,
    repeatCurve_fst_getD model i hi, repeatCurve_snd_getD model i hi⟩

/-- C6 witness: for a model whose maximum observed `T` is 10, the last point
of the observed series is at time 10 and the last point of the extrapolated
series at time 15. -/
theorem repeat_curve_series_witness :
    (plot_expected_repeat_purchases mC).1.length = 100 ∧
    (plot_expected_repeat_purchases mC).2.length = 100 ∧
    (plot_expected_repeat_purchases mC).1.getD 99 (0, 0) =
      (10, mC.expected_number_of_purchases_up_to_time 10) ∧
    (plot_expected_repeat_purchases mC).2.getD 99 (0, 0) =
      (15, mC.expected_number_of_purchases_up_to_time 15) := by
  have h := repeat_curve_series mC 99 (by decide)
  have hM : seriesMax mC.data_T = 10 := by decide
  rw [hM] at h
  norm_num at h ⊢
  exact h

/-- C9: the observed and extrapolated series meet at the junction: the last
observed time point and the first extrapolated time point are both exactly
`max_T`, and the two values there coincide. -/
theorem repeat_curve_junction (model : FittedModel) :
    ((plot_expected_repeat_purchases model).1.getD 99 (0, 0)).1 = seriesMax model.data_T ∧
    ((plot_expected_repeat_purchases model).2.getD 0 (0, 0)).1 = seriesMax model.data_T ∧
    ((plot_expected_repeat_purchases model).1.getD 99 (0, 0)).2 =
      ((plot_expected_repeat_purchases model).2.getD 0 (0, 0)).2 := by
  have h1 := repeatCurve_fst_getD model 99 (by decide)
  have h2 := repeatCurve_snd_getD model 0 (by decide)
  have e1 : 0 + (seriesMax model.data_T - 0) * (99 : ℚ) / 99 = seriesMax model.data_T := by
    ring
  have e2 : seriesMax model.data_T +
      (3 / 2 * seriesMax model.data_T - seriesMax model.data_T) * (0 : ℚ) / 99 =
      seriesMax model.data_T := by
    ring
  rw [h1, h2]
  norm_num [e1, e2]

/-- C7 counterexample: with `maxObservedAge = 0` (model `mZ`) the source code
performs no check at all and still returns two full 100-point series; there is
no failure path in `plot_expected_repeat_purchases`. -/
theorem repeat_curve_no_failure :
    seriesMax mZ.data_T = 0 ∧
    (plot_expected_repeat_purchases mZ).1.length = 100 ∧
    (plot_expected_repeat_purchases mZ).2.length = 100 :=
  ⟨by decide, (repeatCurve_lengths mZ).1, (repeatCurve_lengths mZ).2⟩

/-- C7 amended: no `ConfigurationError` exists; when the maximum observed `T`
is 0 the function returns normally with two degenerate 100-point series, every
point sitting at time 0. -/
theorem repeat_curve_degenerate (model : FittedModel) (h : seriesMax model.data_T = 0) :
    (plot_expected_repeat_purchases model).1 =
      List.replicate 100 (0, model.expected_number_of_purchases_up_to_time 0) ∧
    (plot_expected_repeat_purchases model).2 =
      List.replicate 100 (0, model.expected_number_of_purchases_up_to_time 0) := by
  unfold plot_expected_repeat_purchases linspace
  rw [h]
  norm_num

/-- C7 amended witness: the degenerate series at the concrete model `mZ`. -/
theorem repeat_curve_degenerate_witness :
    (plot_expected_repeat_purchases mZ).1 =
      List.replicate 100 (0, mZ.expected_number_of_purchases_up_to_time 0) ∧
    (plot_expected_repeat_purchases mZ).2 =
      List.replicate 100 (0, mZ.expected_number_of_purchases_up_to_time 0) :=
  repeat_curve_degenerate mZ (by decide)

lemma calibration_keys_eq (model : FittedModel) (rows : List CalibrationHoldoutRow)
    (kind : CovariateKind) (n : ℤ) :
    (plot_calibration_purchases_vs_holdout_purchases model rows kind n).map Prod.fst =
      (groupKeys kind rows).filter (fun k => k ≤ (n : ℚ)) := by
  unfold plot_calibration_purchases_vs_holdout_purchases
  rw [List.map_map]
  simp [Function.comp_def]

lemma groupKeys_sorted (kind : CovariateKind) (rows : List CalibrationHoldoutRow) :
    List.Sorted (· ≤ ·) (groupKeys kind rows) :=
  List.sorted_insertionSort _ _

lemma groupKeys_nodup (kind : CovariateKind) (rows : List CalibrationHoldoutRow) :
    (groupKeys kind rows).Nodup :=
  ((List.perm_insertionSort _ _).nodup_iff).2 (List.nodup_dedup _)

lemma mem_groupKeys {kind : CovariateKind} {rows : List CalibrationHoldoutRow} {k : ℚ} :
    k ∈ groupKeys kind rows ↔ ∃ r ∈ rows, covariateValue kind r = k := by
  unfold groupKeys
  rw [(List.perm_insertionSort _ _).mem_iff, List.mem_dedup, List.mem_map]

/-- C3 counterexample: eight rows with the eight distinct `frequency_cal`
values 0..7 and `n = 7`.  "The first `n` groups" would be 7 groups, but
`.ix[:n]` is a label-based inclusive slice on the sorted numeric group index,
so all 8 groups (every covariate value ≤ 7) are returned. -/
theorem calibration_topN_counterexample :
    (plot_calibration_purchases_vs_holdout_purchases mA rows8
      CovariateKind.frequency_cal 7).length = 8 := by
  decide

/-- C3 amended: the aggregator groups rows by exact covariate value, computes
the per-group arithmetic means of actual and predicted holdout purchases,
orders groups strictly ascending by covariate value, and returns exactly the
groups whose covariate value is at most `n` (a label-based inclusive slice,
not the first `n` groups). -/
theorem calibration_aggregate (model : FittedModel) (rows : List CalibrationHoldoutRow)
    (kind : CovariateKind) (n : ℤ) :
    List.Sorted (· < ·)
      ((plot_calibration_purchases_vs_holdout_purchases model rows kind n).map Prod.fst) ∧
    (∀ e ∈ plot_calibration_purchases_vs_holdout_purchases model rows kind n,
      e.1 ≤ (n : ℚ) ∧ (∃ r ∈ rows, covariateValue kind r = e.1) ∧
      e.2.1 = listMean ((rows.filter (fun r => covariateValue kind r = e.1)).map
        CalibrationHoldoutRow.frequency_holdout) ∧
      e.2.2 = listMean ((rows.filter (fun r => covariateValue kind r = e.1)).map
        (model_predictions model (rows.headI).duration_holdout))) ∧
    (∀ r ∈ rows, covariateValue kind r ≤ (n : ℚ) →
      covariateValue kind r ∈
        (plot_calibration_purchases_vs_holdout_purchases model rows kind n).map Prod.fst) := by
  refine ⟨?_, ?_, ?_⟩
  · rw [calibration_keys_eq]
    exact List.Sorted.lt_of_le (List.Pairwise.filter _ (groupKeys_sorted kind rows))
      (List.Nodup.filter _ (groupKeys_nodup kind rows))
  · intro e he
    unfold plot_calibration_purchases_vs_holdout_purchases at he
    rw [List.mem_map] at he
    obtain ⟨k, hk, rfl⟩ := he
    rw [List.mem_filter] at hk
    refine ⟨by simpa using hk.2, mem_groupKeys.1 hk.1, rfl, rfl⟩
  · intro r hr hle
    rw [calibration_keys_eq, List.mem_filter]
    exact ⟨mem_groupKeys.2 ⟨r, hr, rfl⟩, by simpa using hle⟩

/-- C3 amended witness: completeness instantiated at a concrete row of
`rows8` (covariate value 0 ≤ 7 appears among the returned group keys). -/
theorem calibration_aggregate_witness :
    covariateValue CovariateKind.frequency_cal
        { frequency_cal := 0, recency_cal := 0, T_cal := 2,
          frequency_holdout := 1, duration_holdout := 1 } ∈
      (plot_calibration_purchases_vs_holdout_purchases mA rows8
        CovariateKind.frequency_cal 7).map Prod.fst :=
  (calibration_aggregate mA rows8 CovariateKind.frequency_cal 7).2.2
    { frequency_cal := 0, recency_cal := 0, T_cal := 2,
      frequency_holdout := 1, duration_holdout := 1 } (by decide) (by decide)

lemma rowsMixed_result :
    plot_calibration_purchases_vs_holdout_purchases mA rowsMixed
      CovariateKind.frequency_cal 7 = [(1, 2, 17)] := by
  norm_num [plot_calibration_purchases_vs_holdout_purchases, groupKeys, covariateValue,
    rowsMixed, mA, listMean, model_predictions, List.dedup, List.insertionSort,
    List.orderedInsert, List.filter]

/-- C4 counterexample: `rowsMixed` carries two different `duration_holdout`
values (5 and 7), yet the aggregator returns normally — no
`InvariantViolation` exists — and both rows' predictions use the first row's
value 5: with `mA` the prediction is `5 + 2·1 + 3·0 + 5·2 = 17` for both rows
(row 2's own `duration_holdout = 7` would have given 19). -/
theorem calibration_duration_counterexample :
    rowsMixed.map CalibrationHoldoutRow.duration_holdout = [5, 7] ∧
    plot_calibration_purchases_vs_holdout_purchases mA rowsMixed
      CovariateKind.frequency_cal 7 = [(1, 2, 17)] :=
  ⟨by decide, rowsMixed_result⟩

/-- C4 amended: `duration_holdout` is read once from the first row with no
cross-row validation; every group's predicted mean averages
`conditional_expected_number_of_purchases_up_to_time` evaluated with the
first row's `duration_holdout` for every member row. -/
theorem calibration_duration_from_first (model : FittedModel)
    (rows : List CalibrationHoldoutRow) (kind : CovariateKind) (n : ℤ) :
    ∀ e ∈ plot_calibration_purchases_vs_holdout_purchases model rows kind n,
      e.2.2 = listMean ((rows.filter (fun r => covariateValue kind r = e.1)).map
        (fun r => model.conditional_expected_number_of_purchases_up_to_time
          (rows.headI).duration_holdout r.frequency_cal r.recency_cal r.T_cal)) := by
  intro e he
  unfold plot_calibration_purchases_vs_holdout_purchases at he
  rw [List.mem_map] at he
  obtain ⟨k, _, rfl⟩ := he
  rfl

/-- C4 amended witness: the predicted mean of the single group of `rowsMixed`
equals the mean of per-row predictions taken with the first row's
`duration_holdout`. -/
theorem calibration_duration_from_first_witness :
    (1, 2, 17).2.2 = listMean ((rowsMixed.filter
        (fun r => covariateValue CovariateKind.frequency_cal r = (1, (2 : ℚ), (17 : ℚ)).1)).map
      (fun r => mA.conditional_expected_number_of_purchases_up_to_time
        (rowsMixed.headI).duration_holdout r.frequency_cal r.recency_cal r.T_cal)) :=
  calibration_duration_from_first mA rowsMixed CovariateKind.frequency_cal 7
    (1, 2, 17) (by rw [rowsMixed_result]; exact List.mem_singleton_self _)

/-- C5 counterexample: with unspecified bounds the adapter hands `none`
through to the model (`mE` would have received `some 3`/`some 4` had the
grid evaluator's defaulting rule been applied, since its data maxima are 3
and 4), and it returns the model's grid `[[2]]` verbatim: the value 2 lies
outside `[0, 1]`, yet no `InvariantViolation` is raised — the function has no
validation or failure path. -/
theorem alive_grid_counterexample :
    plot_probability_alive_matrix mE none none = [[2]] ∧
    ¬ (∀ row ∈ plot_probability_alive_matrix mE none none, ∀ v ∈ row, 0 ≤ v ∧ v ≤ 1) ∧
    plot_probability_alive_matrix mE (some 3) (some 4) = [[0]] := by
  refine ⟨rfl, ?_, rfl⟩
  intro h
  have := (h [2] (by simp [plot_probability_alive_matrix, mE]) 2 (by simp)).2
  norm_num at this

/-- C5 amended: `plot_probability_alive_matrix` delegates entirely to
`model.conditional_probability_alive_matrix`, passing `max_x`/`max_t` through
unchanged (no default derivation) and returning the model's grid verbatim
(no shape or range validation). -/
theorem alive_grid_passthrough (m₁ m₂ : FittedModel) (max_x max_t : Option ℤ)
    (h : m₁.conditional_probability_alive_matrix = m₂.conditional_probability_alive_matrix) :
    plot_probability_alive_matrix m₁ max_x max_t =
      m₂.conditional_probability_alive_matrix max_x max_t := by
  simp [plot_probability_alive_matrix, h]

/-- C5 amended witness: `mA` and `mB` share the grid capability, so the
adapter's output for `mA` is `mB`'s grid verbatim. -/
theorem alive_grid_passthrough_witness :
    plot_probability_alive_matrix mA none none =
      mB.conditional_probability_alive_matrix none none :=
  alive_grid_passthrough mA mB none none rfl

/-- C8: the alive path always has length `units + 1`; for a single
transaction and `units = 5` it has length 6 and its first value evaluates the
model at age 0 with `frequency = 0` (and recency 0). -/
theorem alive_path_length :
    (∀ (model : FittedModel) (transactions : List ℕ) (units : ℕ),
      (calculate_alive_path model transactions units).length = units + 1) ∧
    (∀ (model : FittedModel) (t0 : ℕ),
      (calculate_alive_path model [t0] 5).length = 6 ∧
      (calculate_alive_path model [t0] 5).headI = model.probabilityAliveAt 0 0 0) := by
  refine ⟨?_, ?_⟩
  · intro model transactions units
    simp [calculate_alive_path]
  · intro model t0
    refine ⟨by simp [calculate_alive_path], ?_⟩
    have hr : List.range 6 = [0, 1, 2, 3, 4, 5] := by rfl
    simp [calculate_alive_path, hr]
